import Mathlib

/-
Verification of the event-stream extraction, provider-adapter and dispatch
logic of the z-image generation proxy.

The embedding models JavaScript strings as Lean strings operated on through
their underlying character lists (JS strings are sequences of code units;
all inputs of interest here are plain text).  JSON values are modelled by
an inductive type mirroring the values JSON.parse can produce, with numbers
restricted to the integer numerals that actually occur in this protocol.
-/

/-! JS string primitives, modelled on character lists so that they are
kernel-computable. -/

/-- Model of the JS test that a string begins with the given character
list prefix. -/
def charsStartWith : List Char → List Char → Bool
  | [], _ => true
  | _ :: _, [] => false
  | p :: ps, c :: cs => p == c && charsStartWith ps cs

/-- Model of JS String.startsWith. -/
def jsStartsWith (s pre : String) : Bool := charsStartWith pre.data s.data

/-- Drop leading whitespace characters. -/
def trimLeadChars : List Char → List Char
  | [] => []
  | c :: cs => if c.isWhitespace then trimLeadChars cs else c :: cs

/-- Model of JS String.trim: remove leading and trailing whitespace. -/
def jsTrim (s : String) : String :=
  ⟨(trimLeadChars (trimLeadChars s.data.reverse).reverse)⟩

/-- Model of JS String.substring(n): the characters from index n on. -/
def jsDrop (s : String) (n : Nat) : String := ⟨s.data.drop n⟩

/-- Model of JS String.substring(0, n): the first n characters. -/
def jsTake (s : String) (n : Nat) : String := ⟨s.data.take n⟩

/-- Model of JS String.length. -/
def jsLength (s : String) : Nat := s.data.length

/-- Accumulating worker for splitting a character list at newline
characters. -/
def splitNewlineAux : List Char → List Char → List String
  | [], acc => [⟨acc.reverse⟩]
  | c :: cs, acc =>
    if c == '\n' then String.mk acc.reverse :: splitNewlineAux cs []
    else splitNewlineAux cs (c :: acc)

/-- Model of JS String.split applied to the newline separator. -/
def jsSplitLines (s : String) : List String := splitNewlineAux s.data []

/-- Model of the JS truthy-choice operator a || b on optional strings,
where an absent or empty string falls through to the right operand. -/
def jsOrStr (a : Option String) (b : String) : String :=
  match a with
  | some s => if s == "" then b else s
  | none => b

/-- Model of the JS truthy-choice operator a || b on two optional
strings. -/
def jsOrOptStr (a b : Option String) : Option String :=
  match a with
  | some s => if s == "" then b else some s
  | none => b

/-- Truthiness of an optional JS string (undefined and the empty string
are falsy). -/
def optStrTruthy (a : Option String) : Bool :=
  match a with
  | some s => s != ""
  | none => false

/-! The JSON value model. -/

/-- JSON values as produced by JSON.parse, with numbers restricted to the
integer numerals used by this protocol. -/
inductive Json where
  | null
  | bool (b : Bool)
  | num (n : Int)
  | str (s : String)
  | arr (elems : List Json)
  | obj (fields : List (String × Json))

/-- JS truthiness of a JSON value: null, false, 0 and the empty string
are falsy; arrays and objects are always truthy. -/
def Json.truthy : Json → Bool
  | .null => false
  | .bool b => b
  | .num n => n != 0
  | .str s => s != ""
  | .arr _ => true
  | .obj _ => true

/-- Model of the JS optional property access v?.k: a field lookup that
yields the field value on objects and undefined (none) otherwise.
JSON.parse keeps the last of duplicate keys, so the lookup below never
sees duplicates (the model parser overwrites on insert). -/
def Json.getField : Json → String → Option Json
  | .obj fields, key => lookupField fields key
  | _, _ => none
where
  lookupField : List (String × Json) → String → Option Json
    | [], _ => none
    | (k, v) :: rest, key => if k == key then some v else lookupField rest key

/-- Hexadecimal digit of a value below 16, read off the digit
alphabet. -/
def hexDigit (n : Nat) : Char := "0123456789abcdef".data.getD n '0' 

/-- Escape one character as inside a JSON string literal, as
JSON.stringify does. -/
def escapeJsonChar (c : Char) : List Char :=
  if c == '"' then ['\\', '"']
  else if c == '\\' then ['\\', '\\']
  else if c == '\n' then ['\\', 'n']
  else if c == '\t' then ['\\', 't']
  else if c == '\r' then ['\\', 'r']
  else if c.toNat < 32 then
    ['\\', 'u', '0', '0', hexDigit (c.toNat / 16), hexDigit (c.toNat % 16)]
  else [c]

/-- Serialise a JSON string body with escapes. -/
def escapeJsonString (s : String) : String :=
  ⟨(s.data.map escapeJsonChar).flatten⟩

mutual

/-- Model of JSON.stringify on parsed JSON values (no undefined, no
functions, no cycles can occur). -/
def Json.stringify : Json → String
  | .null => "null"
  | .bool true => "true"
  | .bool false => "false"
  | .num n => toString n
  | .str s => "\"" ++ escapeJsonString s ++ "\""
  | .arr elems => "[" ++ Json.stringifyList elems ++ "]"
  | .obj fields => "\x7b" ++ Json.stringifyFields fields ++ "\x7d"

/-- Comma-separated serialisation of array elements. -/
def Json.stringifyList : List Json → String
  | [] => ""
  | [v] => Json.stringify v
  | v :: rest => Json.stringify v ++ "," ++ Json.stringifyList rest

/-- Comma-separated serialisation of object fields. -/
def Json.stringifyFields : List (String × Json) → String
  | [] => ""
  | [(k, v)] => "\"" ++ escapeJsonString k ++ "\":" ++ Json.stringify v
  | (k, v) :: rest =>
    "\"" ++ escapeJsonString k ++ "\":" ++ Json.stringify v ++ "," ++ Json.stringifyFields rest

end

mutual

/-- Model of the JS string coercion String(v) applied to a JSON value,
as performed by the Error constructor on a non-string message. -/
def Json.jsToString : Json → String
  | .null => "null"
  | .bool true => "true"
  | .bool false => "false"
  | .num n => toString n
  | .str s => s
  | .arr elems => Json.jsJoinElems elems
  | .obj _ => "[object Object]"

/-- Model of Array.prototype.toString: elements joined by commas, with
null elements rendered as the empty string. -/
def Json.jsJoinElems : List Json → String
  | [] => ""
  | [.null] => ""
  | [v] => Json.jsToString v
  | .null :: rest => "," ++ Json.jsJoinElems rest
  | v :: rest => Json.jsToString v ++ "," ++ Json.jsJoinElems rest

end

/-- Model of the JS truthy-choice a || b where the left operand is an
optional JSON value (undefined is falsy). -/
def jsOrJson (a : Option Json) (b : Json) : Json :=
  match a with
  | some v => if v.truthy then v else b
  | none => b

/-! A model of JSON.parse, covering the JSON fragment this protocol
exchanges: null, booleans, integer numerals, strings with escapes,
arrays and objects.  Fractional and exponent numerals are outside the
model; no payload in the verified properties uses them. -/

/-- JSON whitespace characters (space, tab, line feed, carriage
return), recognised by code point. -/
def isJsonWs (c : Char) : Bool :=
  c.toNat == 32 || c.toNat == 9 || c.toNat == 10 || c.toNat == 13

/-- Skip leading JSON whitespace. -/
def skipJsonWs : List Char → List Char
  | [] => []
  | c :: cs => if isJsonWs c then skipJsonWs cs else c :: cs

/-- Split off the leading run of decimal digits. -/
def takeDigits : List Char → List Char × List Char
  | [] => ([], [])
  | c :: cs =>
    if c.isDigit then
      let p := takeDigits cs
      (c :: p.1, p.2)
    else ([], c :: cs)

/-- Value of a digit run read most significant first. -/
def digitsToNat : List Char → Nat → Nat
  | [], acc => acc
  | c :: cs, acc => digitsToNat cs (acc * 10 + (c.toNat - '0'.toNat))

/-- Parse a JSON natural numeral (no leading zeros except the numeral 0
itself). -/
def parseNatNumeral (cs : List Char) : Option (Nat × List Char) :=
  match takeDigits cs with
  | ([], _) => none
  | ([d], rest) => some (digitsToNat [d] 0, rest)
  | (d :: ds, rest) =>
    if d == '0' then none else some (digitsToNat (d :: ds) 0, rest)

/-- Parse a JSON integer numeral with optional leading minus. -/
def parseIntNumeral (cs : List Char) : Option (Int × List Char) :=
  match cs with
  | '-' :: rest =>
    match parseNatNumeral rest with
    | some (n, r) => some (-(n : Int), r)
    | none => none
  | _ =>
    match parseNatNumeral cs with
    | some (n, r) => some ((n : Int), r)
    | none => none

/-- Value of a hexadecimal digit character, computed from its code
point (digits, lowercase letters, uppercase letters). -/
def hexVal (c : Char) : Option Nat :=
  let n := c.toNat
  if 48 ≤ n ∧ n ≤ 57 then some (n - 48)
  else if 97 ≤ n ∧ n ≤ 102 then some (n - 87)
  else if 65 ≤ n ∧ n ≤ 70 then some (n - 55)
  else none

/-- The table of single-letter JSON escape codes and the characters
they denote. -/
def escapePairs : List (Char × Char) :=
  [('"', '"'), ('\\', '\\'), ('/', '/'), ('n', '\n'), ('t', '\t'), ('r', '\r'),
   ('b', '\x08'), ('f', '\x0c')]

/-- Character denoted by a single-letter JSON escape code, looked up in
the escape table. -/
def unescapeCode (c : Char) : Option Char :=
  (escapePairs.find? (fun p => p.1 == c)).map (fun p => p.2)

/-- Parse the body of a JSON string literal after its opening quote,
handling the JSON escape sequences. -/
def parseStringBody : List Char → List Char → Option (String × List Char)
  | [], _ => none
  | c :: rest, acc =>
    if c == '"' then some (⟨acc.reverse⟩, rest)
    else if c == '\\' then
      match rest with
      | 'u' :: h1 :: h2 :: h3 :: h4 :: r =>
        match hexVal h1, hexVal h2, hexVal h3, hexVal h4 with
        | some a, some b, some d1, some d2 =>
          parseStringBody r (Char.ofNat (((a * 16 + b) * 16 + d1) * 16 + d2) :: acc)
        | _, _, _, _ => none
      | e :: r =>
        match unescapeCode e with
        | some ec => parseStringBody r (ec :: acc)
        | none => none
      | [] => none
    else if c.toNat < 32 then none
    else parseStringBody rest (c :: acc)

/-- Strip the character sequence of a literal keyword from the head of
the input, yielding the remainder on success. -/
def stripKeyword (kw : String) (cs : List Char) : Option (List Char) :=
  if charsStartWith kw.data cs then some (cs.drop kw.data.length) else none

/-- Insert an object member, overwriting the value of an existing key in
place, as JS object construction does for duplicate keys. -/
def insertField : List (String × Json) → String → Json → List (String × Json)
  | [], k, v => [(k, v)]
  | (k', v') :: rest, k, v =>
    if k' == k then (k, v) :: rest else (k', v') :: insertField rest k v

mutual

/-- Parse one JSON value, fuelled to make the mutual recursion
structural; the entry point supplies ample fuel. -/
def parseJsonValue : Nat → List Char → Option (Json × List Char)
  | 0, _ => none
  | fuel + 1, cs =>
    match skipJsonWs cs with
    | [] => none
    | c :: rest =>
      if c == 'n' then
        match stripKeyword "ull" rest with
        | some r => some (.null, r)
        | none => none
      else if c == 't' then
        match stripKeyword "rue" rest with
        | some r => some (.bool true, r)
        | none => none
      else if c == 'f' then
        match stripKeyword "alse" rest with
        | some r => some (.bool false, r)
        | none => none
      else if c == '"' then
        match parseStringBody rest [] with
        | some (s, r) => some (.str s, r)
        | none => none
      else if c == '[' then
        match skipJsonWs rest with
        | ']' :: r => some (.arr [], r)
        | cs' => parseJsonElems fuel cs' []
      else if c == '\x7b' then
        match skipJsonWs rest with
        | '\x7d' :: r => some (.obj [], r)
        | cs' => parseJsonMembers fuel cs' []
      else
        match parseIntNumeral (c :: rest) with
        | some (n, r) => some (.num n, r)
        | none => none

/-- Parse the remaining comma-separated elements of a non-empty JSON
array, accumulating in reverse. -/
def parseJsonElems : Nat → List Char → List Json → Option (Json × List Char)
  | 0, _, _ => none
  | fuel + 1, cs, acc =>
    match parseJsonValue fuel cs with
    | some (v, rest) =>
      match skipJsonWs rest with
      | ',' :: r => parseJsonElems fuel r (v :: acc)
      | ']' :: r => some (.arr (v :: acc).reverse, r)
      | _ => none
    | none => none

/-- Parse the remaining members of a non-empty JSON object. -/
def parseJsonMembers : Nat → List Char → List (String × Json) → Option (Json × List Char)
  | 0, _, _ => none
  | fuel + 1, cs, acc =>
    match skipJsonWs cs with
    | '"' :: rest =>
      match parseStringBody rest [] with
      | some (k, r1) =>
        match skipJsonWs r1 with
        | ':' :: r2 =>
          match parseJsonValue fuel r2 with
          | some (v, r3) =>
            match skipJsonWs r3 with
            | ',' :: r4 => parseJsonMembers fuel r4 (insertField acc k v)
            | '\x7d' :: r4 => some (.obj (insertField acc k v), r4)
            | _ => none
          | none => none
        | _ => none
      | none => none
    | _ => none

end

/-- Model of JSON.parse: parse one value and require only whitespace to
remain. -/
def Json.parse (s : String) : Option Json :=
  match parseJsonValue (2 * s.data.length + 2) s.data with
  | some (v, rest) => if (skipJsonWs rest).isEmpty then some v else none
  | none => none

/-! The event-stream result extractor.  Two character-identical copies of
extractCompleteEventData exist in the repository, one in the dispatch app
(src/apps/api/src/app.ts) and one in the HuggingFace provider
(src/apps/api/src/providers/huggingface.ts); they are embedded in the App
and HF namespaces respectively. -/

/-- Outcome of extractCompleteEventData.  The function either returns a
decoded payload, throws the Error built in its error-event branch, lets a
SyntaxError escape from decoding a complete payload, or throws the
final no-terminal-event Error. -/
inductive ExtractResult where
  | ok (v : Json)
  | errorEvent (message : String)
  | parseFailure (data : String)
  | noTerminal (message : String)

namespace App

/-- The try/catch block of the error branch of extractCompleteEventData
(app.ts lines 40 to 50): decode the data text; on success throw an Error
carrying the first truthy of the error field, the message field, the
re-serialised value, or a fixed fallback, coerced to a string by the
Error constructor; on a SyntaxError throw an Error carrying the raw data
text when truthy, else a fixed fallback. -/
def errorEventMessage (jsonData : String) : String :=
  match Json.parse jsonData with
  | some errorData =>
    Json.jsToString (jsOrJson (errorData.getField "error")
      (jsOrJson (errorData.getField "message")
        (jsOrJson (some (Json.str (Json.stringify errorData))) (Json.str "Unknown error"))))
  | none => if jsonData == "" then "Unknown SSE error" else jsonData

/-- The line-scanning loop of extractCompleteEventData (app.ts lines 27
to 55), keeping the most recently declared event name. -/
def processLines (sseStream : String) : List String → String → ExtractResult
  | [], _ =>
    .noTerminal ("Unexpected SSE response: " ++ jsTake sseStream 300)
  | line :: rest, currentEvent =>
    if jsStartsWith line "event:" then
      processLines sseStream rest (jsTrim (jsDrop line 6))
    else if jsStartsWith line "data:" then
      let jsonData := jsTrim (jsDrop line 5)
      if currentEvent == "complete" then
        match Json.parse jsonData with
        | some v => .ok v
        | none => .parseFailure jsonData
      else if currentEvent == "error" then
        .errorEvent (errorEventMessage jsonData)
      else
        processLines sseStream rest currentEvent
    else
      processLines sseStream rest currentEvent

/-- Extract complete event data from an SSE stream (app.ts lines 26 to
56). -/
def extractCompleteEventData (sseStream : String) : ExtractResult :=
  processLines sseStream (jsSplitLines sseStream) ""

/-- Event name in effect after scanning a run of lines, mirroring the
event-name updates of processLines. -/
def scanEvent : List String → String → String
  | [], currentEvent => currentEvent
  | line :: rest, currentEvent =>
    if jsStartsWith line "event:" then scanEvent rest (jsTrim (jsDrop line 6))
    else scanEvent rest currentEvent

/-- Whether scanning a run of lines reaches a terminal data line: a data
line whose current event name is complete or error. -/
def hitsTerminal : List String → String → Bool
  | [], _ => false
  | line :: rest, currentEvent =>
    if jsStartsWith line "event:" then hitsTerminal rest (jsTrim (jsDrop line 6))
    else if jsStartsWith line "data:" then
      if currentEvent == "complete" || currentEvent == "error" then true
      else hitsTerminal rest currentEvent
    else hitsTerminal rest currentEvent

theorem processLines_append (sseStream : String) (pre rest : List String) (cur : String)
    (h : hitsTerminal pre cur = false) :
    processLines sseStream (pre ++ rest) cur = processLines sseStream rest (scanEvent pre cur) := by
  induction pre generalizing cur with
  | nil => simp [scanEvent]
  | cons line ls ih =>
    by_cases he : jsStartsWith line "event:"
    · simp only [hitsTerminal, he, if_true] at h
      simp only [List.cons_append, processLines, scanEvent, he, if_true]
      exact ih _ h
    · by_cases hd : jsStartsWith line "data:"
      · simp only [hitsTerminal, he, hd, if_true, if_false, Bool.false_eq_true] at h
        by_cases hc : (cur == "complete" || cur == "error") = true
        · rw [if_pos hc] at h; exact absurd h (by simp)
        · rw [if_neg hc] at h
          have hc1 : (cur == "complete") = false := by
            rcases Bool.or_eq_true_iff.not.mp hc with _
            cases hcc : (cur == "complete") <;> simp_all
          have hc2 : (cur == "error") = false := by
            cases hcc : (cur == "error") <;> simp_all
          simp only [List.cons_append, processLines, scanEvent, he, hd, hc1, hc2,
            if_true, if_false, Bool.false_eq_true]
          exact ih _ h
      · simp only [hitsTerminal, he, hd, if_false, Bool.false_eq_true] at h
        simp only [List.cons_append, processLines, scanEvent, he, hd, if_false,
          Bool.false_eq_true]
        exact ih _ h

end App

namespace HF

/-- The try/catch block of the error branch of the provider copy of
extractCompleteEventData (huggingface.ts lines 24 to 34); the source text
is character-identical to the copy in app.ts. -/
def errorEventMessage (jsonData : String) : String :=
  match Json.parse jsonData with
  | some errorData =>
    Json.jsToString (jsOrJson (errorData.getField "error")
      (jsOrJson (errorData.getField "message")
        (jsOrJson (some (Json.str (Json.stringify errorData))) (Json.str "Unknown error"))))
  | none => if jsonData == "" then "Unknown SSE error" else jsonData

/-- The line-scanning loop of the provider copy of
extractCompleteEventData (huggingface.ts lines 11 to 39). -/
def processLines (sseStream : String) : List String → String → ExtractResult
  | [], _ =>
    .noTerminal ("Unexpected SSE response: " ++ jsTake sseStream 300)
  | line :: rest, currentEvent =>
    if jsStartsWith line "event:" then
      processLines sseStream rest (jsTrim (jsDrop line 6))
    else if jsStartsWith line "data:" then
      let jsonData := jsTrim (jsDrop line 5)
      if currentEvent == "complete" then
        match Json.parse jsonData with
        | some v => .ok v
        | none => .parseFailure jsonData
      else if currentEvent == "error" then
        .errorEvent (errorEventMessage jsonData)
      else
        processLines sseStream rest currentEvent
    else
      processLines sseStream rest currentEvent

/-- Extract complete event data from an SSE stream, provider copy
(huggingface.ts lines 10 to 40). -/
def extractCompleteEventData (sseStream : String) : ExtractResult :=
  processLines sseStream (jsSplitLines sseStream) ""

end HF

/-- C1: for every event-stream text containing a data line whose most
recently declared event name is complete, with only non-terminal
(progress) data lines before it, the extractor JSON-decodes that first
such data line and returns the decoded payload immediately; the lines
after it (post) are universally quantified and do not influence the
result, so no further line is scanned. -/
theorem extractor_returns_first_complete_payload
    (s : String) (pre post : List String) (line : String) (v : Json)
    (hsplit : jsSplitLines s = pre ++ line :: post)
    (hpre : App.hitsTerminal pre "" = false)
    (hev : App.scanEvent pre "" = "complete")
    (hne : jsStartsWith line "event:" = false)
    (hd : jsStartsWith line "data:" = true)
    (hparse : Json.parse (jsTrim (jsDrop line 5)) = some v) :
    App.extractCompleteEventData s = ExtractResult.ok v := by
  unfold App.extractCompleteEventData
  rw [hsplit, App.processLines_append s pre (line :: post) "" hpre, hev]
  simp [App.processLines, hne, hd, hparse]

/-- Witness for C1: a stream with a progress event before the complete
event and an undecodable data line after it still yields the decoded
complete payload. -/
theorem extractor_returns_first_complete_payload_witness :
    App.extractCompleteEventData
        "event: progress\ndata: \x7b\"p\":1\x7d\nevent: complete\ndata: \x7b\"url\":\"u\"\x7d\ndata: junk"
      = ExtractResult.ok (Json.obj [("url", Json.str "u")]) :=
  extractor_returns_first_complete_payload
    "event: progress\ndata: \x7b\"p\":1\x7d\nevent: complete\ndata: \x7b\"url\":\"u\"\x7d\ndata: junk"
    ["event: progress", "data: \x7b\"p\":1\x7d", "event: complete"]
    ["data: junk"]
    "data: \x7b\"url\":\"u\"\x7d"
    (Json.obj [("url", Json.str "u")])
    (by decide) (by decide) (by decide) (by decide) (by decide) rfl

/-- C3: for every event-stream text in which no complete or error data
line occurs, the extractor throws the protocol Error whose message is the
fixed diagnostic prefix followed by exactly the first 300 characters of
the input: at most 300 characters of the raw stream (a prefix of it) and
never more. -/
theorem extractor_no_terminal_protocol_error
    (s : String) (h : App.hitsTerminal (jsSplitLines s) "" = false) :
    App.extractCompleteEventData s
      = ExtractResult.noTerminal ("Unexpected SSE response: " ++ jsTake s 300)
    ∧ jsLength (jsTake s 300) ≤ 300
    ∧ jsTake s 300 ++ jsDrop s 300 = s := by
  refine ⟨?_, ?_, ?_⟩
  · unfold App.extractCompleteEventData
    have happ := App.processLines_append s (jsSplitLines s) [] "" h
    rw [List.append_nil] at happ
    rw [happ]
    rfl
  · simp [jsLength, jsTake]
  · cases s with
    | mk data =>
      show String.mk (List.take 300 data ++ List.drop 300 data) = ⟨data⟩
      rw [List.take_append_drop]

/-- Witness for C3: a stream holding only a progress event yields the
protocol Error with the bounded prefix of the raw stream. -/
theorem extractor_no_terminal_protocol_error_witness :
    App.extractCompleteEventData "event: progress\ndata: \x7b\"p\":1\x7d\n"
      = ExtractResult.noTerminal
          ("Unexpected SSE response: " ++ jsTake "event: progress\ndata: \x7b\"p\":1\x7d\n" 300)
    ∧ jsLength (jsTake "event: progress\ndata: \x7b\"p\":1\x7d\n" 300) ≤ 300
    ∧ jsTake "event: progress\ndata: \x7b\"p\":1\x7d\n" 300
        ++ jsDrop "event: progress\ndata: \x7b\"p\":1\x7d\n" 300
      = "event: progress\ndata: \x7b\"p\":1\x7d\n" :=
  extractor_no_terminal_protocol_error "event: progress\ndata: \x7b\"p\":1\x7d\n" (by decide)

/-- Counterexample for C2 as stated: for an error event whose data is an
object whose error field is present but holds the empty string, the code
skips the field (the truthy-choice chain ignores falsy values) and falls
through to the re-serialised value, so the thrown message is not the
error field's value. -/
theorem extractor_error_event_claim_cex :
    App.extractCompleteEventData "event: error\ndata: \x7b\"error\":\"\"\x7d"
      = ExtractResult.errorEvent "\x7b\"error\":\"\"\x7d"
    ∧ ("\x7b\"error\":\"\"\x7d" : String) ≠ "" := ⟨rfl, by decide⟩

/-- C2 as amended: when the first terminal data line of the stream is an
error data line, the extractor throws the Error built by the
error-branch message rule, which takes the first JS-truthy of the
decoded error field, the decoded message field and the re-serialised
decoded value; in particular a non-empty string error field X yields
exactly the message X, and undecodable non-empty data yields the raw
data text itself. -/
theorem extractor_error_event_message_thm
    (s : String) (pre post : List String) (line : String)
    (hsplit : jsSplitLines s = pre ++ line :: post)
    (hpre : App.hitsTerminal pre "" = false)
    (hev : App.scanEvent pre "" = "error")
    (hne : jsStartsWith line "event:" = false)
    (hd : jsStartsWith line "data:" = true) :
    App.extractCompleteEventData s
      = ExtractResult.errorEvent (App.errorEventMessage (jsTrim (jsDrop line 5)))
    ∧ (∀ m : String, m ≠ "" →
        Json.parse (jsTrim (jsDrop line 5)) = some (Json.obj [("error", Json.str m)]) →
        App.extractCompleteEventData s = ExtractResult.errorEvent m)
    ∧ (Json.parse (jsTrim (jsDrop line 5)) = none → jsTrim (jsDrop line 5) ≠ "" →
        App.extractCompleteEventData s = ExtractResult.errorEvent (jsTrim (jsDrop line 5))) := by
  have hmain : App.extractCompleteEventData s
      = ExtractResult.errorEvent (App.errorEventMessage (jsTrim (jsDrop line 5))) := by
    unfold App.extractCompleteEventData
    rw [hsplit, App.processLines_append s pre (line :: post) "" hpre, hev]
    simp [App.processLines, hne, hd]
  refine ⟨hmain, ?_, ?_⟩
  · intro m hm hparse
    rw [hmain]
    simp [App.errorEventMessage, hparse, Json.getField, Json.getField.lookupField,
      jsOrJson, Json.truthy, Json.jsToString, hm]
  · intro hparse hdne
    rw [hmain]
    simp [App.errorEventMessage, hparse, hdne]

/-- Witness for the amended C2: an error event with data carrying the
error field X throws the Error with message X. -/
theorem extractor_error_event_message_witness :
    App.extractCompleteEventData "event: error\ndata: \x7b\"error\":\"X\"\x7d"
      = ExtractResult.errorEvent "X" :=
  (extractor_error_event_message_thm
      "event: error\ndata: \x7b\"error\":\"X\"\x7d"
      ["event: error"] [] "data: \x7b\"error\":\"X\"\x7d"
      (by decide) (by decide) (by decide) (by decide) (by decide)).2.1
    "X" (by decide) rfl

/-- C10: the two copies of the event-stream extractor, the one in the
dispatch app and the one in the HuggingFace provider, are extensionally
equal: on every input text they return the same value or throw the same
error. -/
theorem extractor_copies_extensionally_equal :
    ∀ s : String, App.extractCompleteEventData s = HF.extractCompleteEventData s := by
  intro s
  unfold App.extractCompleteEventData HF.extractCompleteEventData
  have hmsg : ∀ d, App.errorEventMessage d = HF.errorEventMessage d := fun _ => rfl
  have hloop : ∀ ls cur, App.processLines s ls cur = HF.processLines s ls cur := by
    intro ls
    induction ls with
    | nil => intro cur; rfl
    | cons l r ih =>
      intro cur
      by_cases he : jsStartsWith l "event:"
      · simp only [App.processLines, HF.processLines, he, if_true]
        exact ih _
      · by_cases hd : jsStartsWith l "data:"
        · simp only [App.processLines, HF.processLines, he, hd, if_true, if_false,
            Bool.false_eq_true, hmsg]
          by_cases hc : (cur == "complete") = true
          · simp [hc]
          · simp only [eq_false_of_ne_true hc, if_false, Bool.false_eq_true]
            by_cases her : (cur == "error") = true
            · simp [her]
            · simp only [eq_false_of_ne_true her, if_false, Bool.false_eq_true]
              exact ih _
        · simp only [App.processLines, HF.processLines, he, hd, if_false,
            Bool.false_eq_true]
          exact ih _
  exact hloop _ _

/-! The HuggingFace provider adapter (src/apps/api/src/providers/huggingface.ts). -/

/-- Modelled from the spec: ProviderGenerateRequest is declared in
src/apps/api/src/providers/types.ts, which is not under src; section 3's
normalized GenerationRequest lists its fields (model id, prompt, optional
negative prompt, dimensions, optional steps and seed, optional guidance
scale, optional auth token). -/
structure ProviderRequest where
  model : Option String
  prompt : String
  negativePrompt : Option String
  width : Int
  height : Int
  steps : Option Int
  seed : Option Int
  guidanceScale : Option ℚ
  authToken : Option String

namespace HF

/-- A model-specific Gradio configuration: the endpoint name and the
positional-argument builder (huggingface.ts lines 82 to 85). -/
structure GradioConfig where
  endpoint : String
  buildData : ProviderRequest → Int → List Json

/-- The model-specific Gradio configuration table (huggingface.ts lines
82 to 102), as a lookup keyed by model id. -/
def MODEL_CONFIGS (modelId : String) : Option GradioConfig :=
  if modelId == "z-image-turbo" then
    some ⟨"generate_image", fun r seed =>
      [Json.str r.prompt, Json.num r.height, Json.num r.width,
       Json.num (r.steps.getD 9), Json.num seed, Json.bool false]⟩
  else if modelId == "qwen-image-fast" then
    some ⟨"generate_image", fun r seed =>
      [Json.str r.prompt, Json.num seed, Json.bool true, Json.str "1:1",
       Json.num 3, Json.num (r.steps.getD 8)]⟩
  else if modelId == "ovis-image" then
    some ⟨"generate", fun r seed =>
      [Json.str r.prompt, Json.num r.height, Json.num r.width,
       Json.num seed, Json.num (r.steps.getD 24), Json.num 4]⟩
  else if modelId == "flux-1-schnell" then
    some ⟨"infer", fun r seed =>
      [Json.str r.prompt, Json.num seed, Json.bool false, Json.num r.width,
       Json.num r.height, Json.num (r.steps.getD 8)]⟩
  else none

/-- Modelled from the spec: the HF_SPACES table of hosted-space base URLs
lives in the shared package, which is not under src.  Section 3 says each
supported model carries the baseUrl of its hosted space, and the upscale
path uses a fixed upscaler space; placeholder URL strings stand in for
the real ones. -/
def HF_SPACES (key : String) : Option String :=
  if key == "z-image-turbo" then some "https://space.example/z-image-turbo"
  else if key == "qwen-image-fast" then some "https://space.example/qwen-image-fast"
  else if key == "ovis-image" then some "https://space.example/ovis-image"
  else if key == "flux-1-schnell" then some "https://space.example/flux-1-schnell"
  else if key == "upscaler" then some "https://space.example/upscaler"
  else none

/-- Seed chosen by generate (huggingface.ts line 109): the requested seed
when supplied (nullish coalescing, so an explicit 0 is kept), else the
floor of the RNG draw scaled by 2147483647. -/
def chooseSeed (requested : Option Int) (r : ℚ) : Int :=
  match requested with
  | some s => s
  | none => ⌊r * 2147483647⌋

/-- Model id resolution (huggingface.ts line 110): the requested model id
when truthy, else the default model. -/
def resolveModelId (model : Option String) : String := jsOrStr model "z-image-turbo"

/-- Base URL resolution (huggingface.ts line 111): the space of the
resolved model id when truthy, else the default model's space. -/
def resolveBaseUrl (modelId : String) : Option String :=
  match HF_SPACES modelId with
  | some u => if u == "" then HF_SPACES "z-image-turbo" else some u
  | none => HF_SPACES "z-image-turbo"

/-- Gradio configuration resolution (huggingface.ts line 112): the
configuration of the resolved model id when present, else the default
model's configuration. -/
def resolveConfig (modelId : String) : Option GradioConfig :=
  match MODEL_CONFIGS modelId with
  | some c => some c
  | none => MODEL_CONFIGS "z-image-turbo"

/-- The normalized success response of generate (huggingface.ts lines
132 to 135). -/
structure HFSuccess where
  url : Json
  seed : Int

/-- The seed reported in the success response (huggingface.ts line 134):
the second result element when it is a number, else the chosen seed. -/
def seedFromResult (result : List Json) (seed : Int) : Int :=
  match result[1]? with
  | some (Json.num n) => n
  | _ => seed

/-- Result normalisation of generate (huggingface.ts lines 124 to 135):
read the url property of the first result element; a missing element, a
missing property or a falsy value (empty string) throws the
no-image Error; otherwise return that url with the reported seed. -/
def normalizeResult (result : List Json) (seed : Int) : Except String HFSuccess :=
  match (result[0]?).bind (fun j => j.getField "url") with
  | some u =>
    if u.truthy then Except.ok ⟨u, seedFromResult result seed⟩
    else Except.error "No image returned from HuggingFace"
  | none => Except.error "No image returned from HuggingFace"

end HF

/-- C4: for every non-empty model id recognized by neither the Gradio
configuration table nor the spaces table, generate's model resolution
does not fail: the id resolves to itself, the base URL and configuration
fall back to those of the default model z-image-turbo, and both are
present, so generation proceeds with that configuration. -/
theorem hf_unknown_model_falls_back
    (m : String) (hne : m ≠ "")
    (hc : HF.MODEL_CONFIGS m = none)
    (hs : HF.HF_SPACES m = none) :
    HF.resolveModelId (some m) = m
    ∧ HF.resolveBaseUrl m = HF.HF_SPACES "z-image-turbo"
    ∧ HF.resolveConfig m = HF.MODEL_CONFIGS "z-image-turbo"
    ∧ (HF.resolveBaseUrl m).isSome = true
    ∧ (HF.resolveConfig m).isSome = true := by
  have hb : HF.resolveBaseUrl m = HF.HF_SPACES "z-image-turbo" := by
    unfold HF.resolveBaseUrl; rw [hs]
  have hcfg : HF.resolveConfig m = HF.MODEL_CONFIGS "z-image-turbo" := by
    unfold HF.resolveConfig; rw [hc]
  refine ⟨?_, hb, hcfg, ?_, ?_⟩
  · simp [HF.resolveModelId, jsOrStr, hne]
  · rw [hb]; rfl
  · rw [hcfg]; rfl

/-- Witness for C4: the unrecognized id unknown-model resolves to the
default model's base URL and configuration. -/
theorem hf_unknown_model_falls_back_witness :
    HF.resolveModelId (some "unknown-model") = "unknown-model"
    ∧ HF.resolveBaseUrl "unknown-model" = HF.HF_SPACES "z-image-turbo"
    ∧ HF.resolveConfig "unknown-model" = HF.MODEL_CONFIGS "z-image-turbo"
    ∧ (HF.resolveBaseUrl "unknown-model").isSome = true
    ∧ (HF.resolveConfig "unknown-model").isSome = true :=
  hf_unknown_model_falls_back "unknown-model" (by decide) rfl rfl

/-- C5 as amended: for a backend result whose first element carries a
non-empty string url field, generate returns that url, with the second
result element as seed when it is a number, else the requested or
generated seed. -/
theorem hf_result_url_and_seed
    (result : List Json) (j : Json) (u : String) (seed : Int)
    (h0 : result[0]? = some j)
    (hu : j.getField "url" = some (Json.str u))
    (hne : u ≠ "") :
    (∀ n : Int, result[1]? = some (Json.num n) →
      HF.normalizeResult result seed = Except.ok ⟨Json.str u, n⟩)
    ∧ ((∀ n : Int, result[1]? ≠ some (Json.num n)) →
      HF.normalizeResult result seed = Except.ok ⟨Json.str u, seed⟩) := by
  constructor
  · intro n hn
    simp [HF.normalizeResult, h0, hu, Json.truthy, hne, HF.seedFromResult, hn]
  · intro hn
    have hseed : HF.seedFromResult result seed = seed := by
      unfold HF.seedFromResult
      cases hv : result[1]? with
      | none => rfl
      | some v =>
        cases v with
        | num n => exact absurd hv (hn n)
        | null => rfl
        | bool b => rfl
        | str s => rfl
        | arr l => rfl
        | obj f => rfl
    simp [HF.normalizeResult, h0, hu, Json.truthy, hne, hseed]

/-- Witness for the amended C5: the result array of the spec's end-to-end
example, with requested seed 7, normalises to the backend url and the
backend-reported seed 42. -/
theorem hf_result_url_and_seed_witness :
    HF.normalizeResult [Json.obj [("url", Json.str "https://x/y.png")], Json.num 42] 7
      = Except.ok ⟨Json.str "https://x/y.png", 42⟩ :=
  (hf_result_url_and_seed [Json.obj [("url", Json.str "https://x/y.png")], Json.num 42]
      (Json.obj [("url", Json.str "https://x/y.png")]) "https://x/y.png" 7
      rfl rfl (by decide)).1 42 rfl

/-- Counterexample for C5 as stated: a first element whose url field is
the (string-valued) empty string is rejected by the falsy check, so
generate throws the no-image Error instead of returning that url. -/
theorem hf_result_empty_url_cex :
    HF.normalizeResult [Json.obj [("url", Json.str "")], Json.num 42] 7
      = Except.error "No image returned from HuggingFace"
    ∧ ∀ r : HF.HFSuccess,
        (Except.error "No image returned from HuggingFace" : Except String HF.HFSuccess)
          ≠ Except.ok r :=
  ⟨rfl, fun _ h => Except.noConfusion h⟩

/-- C6: for every RNG draw r in the unit interval, the seed generated for
a request without a caller-supplied seed lies in the fixed positive
range: 0 is a lower bound and 2147483647 a strict upper bound. -/
theorem hf_generated_seed_in_range (r : ℚ) (h0 : 0 ≤ r) (h1 : r < 1) :
    0 ≤ HF.chooseSeed none r ∧ HF.chooseSeed none r < 2147483647 := by
  constructor
  · exact Int.floor_nonneg.mpr (by positivity)
  · show ⌊r * 2147483647⌋ < 2147483647
    rw [Int.floor_lt]
    push_cast
    nlinarith

/-- Witness for C6: the RNG draw one half generates a seed in range. -/
theorem hf_generated_seed_in_range_witness :
    0 ≤ HF.chooseSeed none (1 / 2) ∧ HF.chooseSeed none (1 / 2) < 2147483647 :=
  hf_generated_seed_in_range (1 / 2) (by norm_num) (by norm_num)

/-! The dispatch layer: the POST generate handler of createApp
(src/apps/api/src/app.ts lines 144 to 213).  The provider registry
(hasProvider) and the PROVIDER_CONFIGS table live in ./providers and the
shared package, which are not under src; following section 4.4 they are
static immutable mappings and are taken as parameters of the handler.
The same holds for the provider adapter: its generate outcome enters as
the function parameter gen, so a response that is proved equal for every
gen is produced without invoking the adapter. -/

namespace App

/-- Static provider capability metadata (spec section 3 ProviderConfig). -/
structure ProviderConfig where
  id : String
  name : String
  requiresAuth : Bool
  authHeader : String

/-- Verdict of a validator (spec section 3 ValidationVerdict): a validity
flag with a human-readable reason, never an exception. -/
structure ValidationResult where
  valid : Bool
  error : Option String

/-- Modelled from the spec: validatePrompt of the shared package is not
under src; section 4.5 requires the prompt to be non-empty after
trimming and length-bounded by a fixed maximum (a few thousand
characters; 2000 in this model). -/
def validatePrompt (prompt : Option String) : ValidationResult :=
  match prompt with
  | none => ⟨false, some "Prompt is required"⟩
  | some p =>
    if jsTrim p == "" then ⟨false, some "Prompt is required"⟩
    else if 2000 < jsLength p then ⟨false, some "Prompt is too long"⟩
    else ⟨true, none⟩

/-- Modelled from the spec: validateDimensions of the shared package is
not under src; section 4.5 requires both dimensions positive, within
fixed bounds and multiples of a fixed alignment (bounds 64 to 2048 and
alignment 8 in this model, making the spec's examples 1024 valid and 0
or 1023 invalid). -/
def validateDimensions (width height : Int) : ValidationResult :=
  if width < 64 ∨ 2048 < width ∨ width % 8 ≠ 0 then
    ⟨false, some "Invalid width"⟩
  else if height < 64 ∨ 2048 < height ∨ height % 8 ≠ 0 then
    ⟨false, some "Invalid height"⟩
  else ⟨true, none⟩

/-- Modelled from the spec: validateSteps of the shared package is not
under src; section 4.5 requires an integer within fixed bounds (1 to 50
in this model). -/
def validateSteps (steps : Int) : ValidationResult :=
  if steps < 1 ∨ 50 < steps then ⟨false, some "Invalid steps"⟩ else ⟨true, none⟩

/-- An HTTP JSON response envelope: status code and body. -/
structure Response where
  status : Nat
  body : Json

/-- Body shape of the error envelopes produced by c.json. -/
def jsonError (message : String) : Json := Json.obj [("error", Json.str message)]

/-- A value thrown by a provider's generate call: a JS Error carrying a
message (the upstream and protocol failures of this codebase are all
such Errors), or any other thrown value. -/
inductive Thrown where
  | jsError (message : String)
  | nonError

/-- Normalized generation success of the dispatch layer (spec section 3
GenerationResult). -/
structure GenSuccess where
  url : String
  seed : Int

/-- The parsed body of a POST generate request (app.ts line 145):
GenerateRequest plus the legacy negative_prompt and num_inference_steps
aliases.  Fields are optional as on the wire; their order below is
provider, model, prompt, negativePrompt, negative_prompt, width, height,
steps, num_inference_steps, seed, guidanceScale. -/
structure GenerateBody where
  provider : Option String
  model : Option String
  prompt : Option String
  negativePrompt : Option String
  negative_prompt : Option String
  width : Option Int
  height : Option Int
  steps : Option Int
  num_inference_steps : Option Int
  seed : Option Int
  guidanceScale : Option ℚ

/-- The provider request built at app.ts lines 196 to 206.  Validation
has ensured the prompt is present, so an absent prompt is represented by
the empty string. -/
def buildProviderRequest (b : GenerateBody) (width height steps : Int)
    (authToken : Option String) : ProviderRequest :=
  ⟨b.model, b.prompt.getD "", jsOrOptStr b.negativePrompt b.negative_prompt,
    width, height, some steps, b.seed, b.guidanceScale, authToken⟩

/-- The validation and generation tail of the POST generate handler
(app.ts lines 173 to 212): prompt, dimensions and steps are validated in
order with a 400 on the first failure; then generate's outcome is mapped
to 200 on success, or to 500 carrying the Error message of a thrown
Error and a fixed generic message for any other thrown value. -/
def validateAndGenerate (gen : ProviderRequest → Except Thrown GenSuccess)
    (b : GenerateBody) (authToken : Option String) : Response :=
  let promptValidation := validatePrompt b.prompt
  if promptValidation.valid = false then
    ⟨400, jsonError (promptValidation.error.getD "")⟩
  else
    let width := b.width.getD 1024
    let height := b.height.getD 1024
    let dimensionsValidation := validateDimensions width height
    if dimensionsValidation.valid = false then
      ⟨400, jsonError (dimensionsValidation.error.getD "")⟩
    else
      let steps := (b.steps <|> b.num_inference_steps).getD 9
      let stepsValidation := validateSteps steps
      if stepsValidation.valid = false then
        ⟨400, jsonError (stepsValidation.error.getD "")⟩
      else
        match gen (buildProviderRequest b width height steps authToken) with
        | Except.ok result =>
          ⟨200, Json.obj [("url", Json.str result.url), ("seed", Json.num result.seed)]⟩
        | Except.error (Thrown.jsError m) => ⟨500, jsonError m⟩
        | Except.error Thrown.nonError => ⟨500, jsonError "Image generation failed"⟩

/-- The POST generate handler (app.ts lines 144 to 213).  An unparsable
body is the none case.  The provider id defaults to gitee when absent or
empty; an id outside the registry is a 400; when the provider's config
requires auth and the designated header (falling back to X-API-Key when
the config or its header name is missing) yields no truthy token, the
response is a 401 naming that header.  The source reads the config with
optional chaining; the match below splits the same cases. -/
def handleGenerate (hasProvider : String → Bool)
    (providerConfigs : String → Option ProviderConfig)
    (gen : ProviderRequest → Except Thrown GenSuccess)
    (header : String → Option String)
    (body : Option GenerateBody) : Response :=
  match body with
  | none => ⟨400, jsonError "Invalid JSON body"⟩
  | some b =>
    let providerId := jsOrStr b.provider "gitee"
    if hasProvider providerId = false then
      ⟨400, jsonError ("Invalid provider: " ++ providerId)⟩
    else
      match providerConfigs providerId with
      | some providerConfig =>
        let authToken := header (jsOrStr (some providerConfig.authHeader) "X-API-Key")
        if providerConfig.requiresAuth && !(optStrTruthy authToken) then
          ⟨401, jsonError (providerConfig.authHeader ++ " is required for "
            ++ providerConfig.name)⟩
        else validateAndGenerate gen b authToken
      | none => validateAndGenerate gen b (header "X-API-Key")

end App

/-- C7: for every generate request whose resolved provider is registered,
requires auth, and whose designated (non-empty) auth header is absent
from the request, the handler responds 401 with the message naming the
required header; the adapter outcome gen is universally quantified and
absent from the conclusion, so no adapter is invoked. -/
theorem generate_missing_auth_401
    (hasProvider : String → Bool)
    (providerConfigs : String → Option App.ProviderConfig)
    (gen : ProviderRequest → Except App.Thrown App.GenSuccess)
    (header : String → Option String)
    (b : App.GenerateBody) (cfg : App.ProviderConfig)
    (hp : hasProvider (jsOrStr b.provider "gitee") = true)
    (hcfg : providerConfigs (jsOrStr b.provider "gitee") = some cfg)
    (hreq : cfg.requiresAuth = true)
    (hh : cfg.authHeader ≠ "")
    (habs : header cfg.authHeader = none) :
    App.handleGenerate hasProvider providerConfigs gen header (some b)
      = ⟨401, App.jsonError (cfg.authHeader ++ " is required for " ++ cfg.name)⟩ := by
  have hauthH : jsOrStr (some cfg.authHeader) "X-API-Key" = cfg.authHeader := by
    simp [jsOrStr, hh]
  unfold App.handleGenerate
  simp [hp, hcfg, hauthH, habs, hreq, optStrTruthy]

/-- Witness for C7: a request for the auth-requiring huggingface
provider with no headers is answered 401 naming X-HF-Token. -/
theorem generate_missing_auth_401_witness :
    App.handleGenerate (fun p => p == "huggingface")
        (fun p => if p == "huggingface" then
            some ⟨"huggingface", "HuggingFace", true, "X-HF-Token"⟩ else none)
        (fun _ => Except.error App.Thrown.nonError)
        (fun _ => none)
        (some ⟨some "huggingface", none, some "cat", none, none, none, none, none,
          none, none, none⟩)
      = ⟨401, App.jsonError ("X-HF-Token" ++ " is required for " ++ "HuggingFace")⟩ :=
  generate_missing_auth_401 _ _ _ _ _ ⟨"huggingface", "HuggingFace", true, "X-HF-Token"⟩
    rfl rfl rfl (by decide) rfl

/-- C8: a body without a provider id is handled exactly as one naming the
fixed fallback provider gitee; and when the resolved provider id is not
in the registry, the handler responds 400 with the message naming the
invalid provider, for every adapter outcome gen, so no adapter is
invoked. -/
theorem generate_provider_default_and_unknown :
    (∀ (hasProvider : String → Bool) (providerConfigs : String → Option App.ProviderConfig)
        (gen : ProviderRequest → Except App.Thrown App.GenSuccess)
        (header : String → Option String) (b : App.GenerateBody),
      b.provider = none →
      App.handleGenerate hasProvider providerConfigs gen header (some b)
        = App.handleGenerate hasProvider providerConfigs gen header
            (some { b with provider := some "gitee" }))
    ∧ (∀ (hasProvider : String → Bool) (providerConfigs : String → Option App.ProviderConfig)
        (gen : ProviderRequest → Except App.Thrown App.GenSuccess)
        (header : String → Option String) (b : App.GenerateBody),
        hasProvider (jsOrStr b.provider "gitee") = false →
        App.handleGenerate hasProvider providerConfigs gen header (some b)
          = ⟨400, App.jsonError ("Invalid provider: " ++ jsOrStr b.provider "gitee")⟩) := by
  constructor
  · intro hasProvider providerConfigs gen header b hn
    have h1 : jsOrStr b.provider "gitee" = "gitee" := by rw [hn]; rfl
    unfold App.handleGenerate
    simp only [h1]
    rfl
  · intro hasProvider providerConfigs gen header b h
    unfold App.handleGenerate
    simp [h]

/-- Witness for C8: the unknown provider id nope is answered 400 naming
it, with an empty registry and an adapter that would throw. -/
theorem generate_provider_default_and_unknown_witness :
    App.handleGenerate (fun _ => false) (fun _ => none)
        (fun _ => Except.error App.Thrown.nonError) (fun _ => none)
        (some ⟨some "nope", none, some "cat", none, none, none, none, none, none,
          none, none⟩)
      = ⟨400, App.jsonError ("Invalid provider: " ++ jsOrStr (some "nope") "gitee")⟩ :=
  generate_provider_default_and_unknown.2 _ _ _ _ _ rfl

/-- C9 as amended: for every request passing provider resolution, the
auth check and the three validators, the handler returns 200 with the
adapter's normalized result on success and 500 on any thrown value, so
no error escapes the boundary; a thrown Error, expected or not, yields
500 with that Error's message, and only a thrown non-Error value yields
500 with the fixed generic message. -/
theorem generate_outcome_mapping
    (hasProvider : String → Bool)
    (providerConfigs : String → Option App.ProviderConfig)
    (gen : ProviderRequest → Except App.Thrown App.GenSuccess)
    (header : String → Option String)
    (b : App.GenerateBody) (cfg : App.ProviderConfig) (req : ProviderRequest)
    (hp : hasProvider (jsOrStr b.provider "gitee") = true)
    (hcfg : providerConfigs (jsOrStr b.provider "gitee") = some cfg)
    (hauth : (cfg.requiresAuth
        && !(optStrTruthy (header (jsOrStr (some cfg.authHeader) "X-API-Key")))) = false)
    (hprompt : (App.validatePrompt b.prompt).valid = true)
    (hdims : (App.validateDimensions (b.width.getD 1024) (b.height.getD 1024)).valid = true)
    (hsteps : (App.validateSteps ((b.steps <|> b.num_inference_steps).getD 9)).valid = true)
    (hreq : req = App.buildProviderRequest b (b.width.getD 1024) (b.height.getD 1024)
        ((b.steps <|> b.num_inference_steps).getD 9)
        (header (jsOrStr (some cfg.authHeader) "X-API-Key"))) :
    (∀ result : App.GenSuccess, gen req = Except.ok result →
      App.handleGenerate hasProvider providerConfigs gen header (some b)
        = ⟨200, Json.obj [("url", Json.str result.url), ("seed", Json.num result.seed)]⟩)
    ∧ (∀ m : String, gen req = Except.error (App.Thrown.jsError m) →
      App.handleGenerate hasProvider providerConfigs gen header (some b)
        = ⟨500, App.jsonError m⟩)
    ∧ (gen req = Except.error App.Thrown.nonError →
      App.handleGenerate hasProvider providerConfigs gen header (some b)
        = ⟨500, App.jsonError "Image generation failed"⟩) := by
  have hmain : App.handleGenerate hasProvider providerConfigs gen header (some b)
      = App.validateAndGenerate gen b (header (jsOrStr (some cfg.authHeader) "X-API-Key")) := by
    unfold App.handleGenerate
    simp [hp, hcfg, hauth]
  refine ⟨?_, ?_, ?_⟩
  · intro result hok
    rw [hmain]
    unfold App.validateAndGenerate
    simp [hprompt, hdims, hsteps, ← hreq, hok]
  · intro m herr
    rw [hmain]
    unfold App.validateAndGenerate
    simp [hprompt, hdims, hsteps, ← hreq, herr]
  · intro herr
    rw [hmain]
    unfold App.validateAndGenerate
    simp [hprompt, hdims, hsteps, ← hreq, herr]

/-- Witness for the amended C9: a valid request whose adapter succeeds is
answered 200 with the normalized url and seed. -/
theorem generate_outcome_mapping_witness :
    App.handleGenerate (fun _ => true)
        (fun _ => some ⟨"gitee", "Gitee AI", false, "X-API-Key"⟩)
        (fun _ => Except.ok ⟨"https://x/y.png", 42⟩)
        (fun _ => none)
        (some ⟨some "gitee", none, some "cat", none, none, none, none, none, none,
          none, none⟩)
      = ⟨200, Json.obj [("url", Json.str "https://x/y.png"), ("seed", Json.num 42)]⟩ :=
  (generate_outcome_mapping _ _ _ _ _ ⟨"gitee", "Gitee AI", false, "X-API-Key"⟩ _
      rfl rfl rfl (by decide) (by decide) (by decide) rfl).1
    ⟨"https://x/y.png", 42⟩ rfl

/-- Counterexample for C9 as stated: an unexpected thrown exception that
is an Error instance is mapped to 500 carrying its own message, not the
generic message the claim promises for unexpected exceptions. -/
theorem generate_unexpected_error_cex :
    App.handleGenerate (fun _ => true)
        (fun _ => some ⟨"gitee", "Gitee AI", false, "X-API-Key"⟩)
        (fun _ => Except.error (App.Thrown.jsError "Cannot read properties of undefined"))
        (fun _ => none)
        (some ⟨some "gitee", none, some "cat", none, none, none, none, none, none,
          none, none⟩)
      = ⟨500, App.jsonError "Cannot read properties of undefined"⟩
    ∧ ("Cannot read properties of undefined" : String) ≠ "Image generation failed" :=
  ⟨rfl, by decide⟩
